import Mathlib

/-!
Verification of the hot-reload coordination subsystem of `wee.py`
(a Jinja2-template-to-PDF renderer with watch mode).

The Python source is shallowly embedded as follows.

* Timestamps (`time.time() * 1000` wall-clock milliseconds and
  `os.path.getmtime` modification times) are modelled as `Int`.  The code
  uses floating-point values, but every property verified here depends
  only on ordered subtraction and comparison, which agree on any linearly
  ordered subfield, so the integer model is faithful to the comparisons
  the code performs.
* JSON data (`json.load` results, `config.context_data`) is the inductive
  `JValue`.
* The filesystem and the external engines that the design document keeps
  out of scope (Jinja2's `Environment.get_template`, template rendering,
  WeasyPrint conversion) are an explicit record `FS` of pure functions
  plus `render`/`convert` function parameters; a call that would raise a
  Python exception is a `none` result.
* Mutable attributes (`TemplateRenderer._template_cache`,
  `FileWatcher.last_render_time`, `FileWatcher.pending_render`,
  `config.context_data`) become explicit state records threaded through
  the functions, which keep the Python names.
* Python truthiness tests on optional strings (`if self.config.x and …`)
  are modelled by `pyTruthyAnd`: `None` and the empty string are falsy.
-/

namespace Wee

/-- JSON-like values: the shape of parsed context data (`json.load` output
and the in-process default payload). -/
inductive JValue where
  | jnull
  | jbool (b : Bool)
  | jnum (q : ℚ)
  | jstr (s : String)
  | jarr (elems : List JValue)
  | jobj (members : List (String × JValue))

/-- A loaded template handle.  The design document treats the rendering
engine as an external collaborator, so a handle is identified with the
template source the engine loaded. -/
abbrev Template := String

/-- Embedding of the `WeeConfig` class: one field per Python attribute,
with the constructor defaults of `WeeConfig.__init__`. -/
structure WeeConfig where
  template_file : Option String := none
  template_dir : Option String := none
  output_pdf : String := "output.pdf"
  context_file : Option String := none
  context_data : JValue := .jobj []
  watch_mode : Bool := false
  auto_open : Bool := true
  debounce_ms : Int := 100

/-- The ambient filesystem and external engines, as pure functions:
`abspath`/`basename` are `os.path` operations, `pathExists` is
`os.path.exists`, `readJson p` is `json.load(open(p))` (`none` = any
exception: missing file or parse error), `getmtime` is `os.path.getmtime`,
and `get_template` is the Jinja2 environment's `Environment.get_template`
(which reads from disk through the `FileSystemLoader`; `none` = the
engine raised, e.g. `TemplateNotFound`). -/
structure FS where
  abspath : String → String
  basename : String → String
  pathExists : String → Bool
  readJson : String → Option JValue
  getmtime : String → Int
  get_template : String → Option Template

/-- Python truthiness of an optional string combined with a further test:
`if cfg.x and f(cfg.x)` — `None` and `""` are falsy. -/
def pyTruthyAnd (o : Option String) (f : String → Bool) : Bool :=
  match o with
  | none => false
  | some s => !s.isEmpty && f s

/-- Python `str.startswith`. -/
def pyStartsWith (s pre : String) : Bool :=
  pre.data.isPrefixOf s.data

/-- Helper for `pyReplace`: scans left to right; on a pattern match emits
the replacement and skips the matched characters, otherwise keeps one
character.  The fuel argument only bounds the recursion; one unit is
consumed per emitted chunk, and since a nonempty pattern consumes at least
one input character per step, fuel `s.length` never runs out. -/
def pyReplaceAux (pat rep : List Char) : Nat → List Char → List Char
  | _, [] => []
  | 0, l => l
  | fuel + 1, c :: rest =>
    if pat.isPrefixOf (c :: rest) then
      rep ++ pyReplaceAux pat rep fuel (List.drop (pat.length - 1) rest)
    else
      c :: pyReplaceAux pat rep fuel rest

/-- Python `s.replace(pat, rep)` for a nonempty pattern: replaces every
non-overlapping occurrence, scanning left to right.  (The program only
calls it with the pattern `".pdf"`.) -/
def pyReplace (s pat rep : String) : String :=
  if pat.isEmpty then s else String.mk (pyReplaceAux pat.data rep.data s.data.length s.data)

/-- Mutable state of `TemplateRenderer`: the `_template_cache` dict,
mapping an absolute template path to the cached `(template, mtime)` pair.
(The `_env_cache` attribute is folded into `FS.get_template`: the
environment is built once from configuration fields that never change.) -/
structure RendererState where
  template_cache : List (String × (Template × Int)) := []

/-- Dict lookup (`cache_key in self._template_cache` / subscript). -/
def cacheLookup : List (String × (Template × Int)) → String → Option (Template × Int)
  | [], _ => none
  | (k, v) :: rest, key => if k = key then some v else cacheLookup rest key

/-- Dict assignment (`self._template_cache[cache_key] = …`): replaces an
existing binding or appends a new one. -/
def cacheInsert : List (String × (Template × Int)) → String → Template × Int →
    List (String × (Template × Int))
  | [], key, v => [(key, v)]
  | (k, w) :: rest, key, v =>
    if k = key then (key, v) :: rest else (k, w) :: cacheInsert rest key v

/-- Embedding of `TemplateRenderer.render_template`.  Returns the rendered
markup, the updated cache state, and the number of disk template loads
performed (the instrumented disk-read counter of the design document's
testable property: `0` on a cache hit, `1` when `env.get_template` runs).
`none` models an exception escaping (template load failure). -/
def render_template (fs : FS) (render : Template → JValue → String)
    (st : RendererState) (template_path : String) (context : JValue) :
    Option (String × RendererState × Nat) :=
  let template_name := fs.basename template_path
  let template_path_abs := fs.abspath template_path
  let cache_key := template_path_abs
  let cachedResult : Option String :=
    match cacheLookup st.template_cache cache_key with
    | some (cached_template, cached_mtime) =>
      if fs.getmtime template_path_abs ≤ cached_mtime then
        some (render cached_template context)
      else
        none
    | none => none
  match cachedResult with
  | some r => some (r, st, 0)
  | none =>
    match fs.get_template template_name with
    | none => none
    | some template =>
      some (render template context,
        { template_cache :=
            cacheInsert st.template_cache cache_key (template, fs.getmtime template_path_abs) },
        1)

/-- The default context payload built inline in `load_context`; `now` is
the `datetime.now().strftime` date stamp. -/
def defaultContext (now : String) : JValue :=
  .jobj [("title", .jstr "Wee Document"),
         ("date", .jstr now),
         ("author", .jstr "Wee User"),
         ("description", .jstr "Document generated with Wee"),
         ("items", .jarr [.jobj [("name", .jstr "Sample Item"),
                                 ("quantity", .jnum 1),
                                 ("price", .jnum (999 / 100))]])]

/-- Embedding of `load_context`: returns the payload together with a flag
recording whether the "Could not load context file" warning was printed. -/
def load_context (fs : FS) (now : String) (cfg : WeeConfig) : JValue × Bool :=
  match cfg.context_file with
  | some cf =>
    if !cf.isEmpty && fs.pathExists cf then
      match fs.readJson cf with
      | some d => (d, false)
      | none => (defaultContext now, true)
    else
      (defaultContext now, false)
  | none => (defaultContext now, false)

/-- Observable outcome of one successful `render_and_generate_pdf` call:
the two file writes (markup sibling file and PDF), the updated renderer
state, and whether the viewer was launched. -/
structure PipelineOut where
  html_path : String
  html_content : String
  pdf_path : String
  pdf_bytes : String
  st : RendererState
  opened : Bool

/-- Embedding of `render_and_generate_pdf`; `convert` is WeasyPrint's
HTML-to-PDF conversion.  `none` models an exception escaping (no template
configured, or template load failure inside `render_template`). -/
def render_and_generate_pdf (fs : FS) (render : Template → JValue → String)
    (convert : String → String) (now : String) (cfg : WeeConfig)
    (rst : RendererState) (auto_open : Bool) : Option PipelineOut :=
  let context := (load_context fs now cfg).1
  match cfg.template_file with
  | none => none
  | some tf =>
    match render_template fs render rst tf context with
    | none => none
    | some (html_content, rst', _) =>
      let html_output := pyReplace cfg.output_pdf ".pdf" ".html"
      some { html_path := html_output,
             html_content := html_content,
             pdf_path := cfg.output_pdf,
             pdf_bytes := convert html_content,
             st := rst',
             opened := auto_open }

/-- Mutable state of a `FileWatcher` plus the shared mutable objects it
reaches: its own `last_render_time` and `pending_render`, the shared
`config` (whose `context_data` is reassigned on context reload) and the
shared renderer cache. -/
structure WatchState where
  cfg : WeeConfig
  last_render_time : Int
  pending_render : Bool
  rst : RendererState

/-- Embedding of `FileWatcher.__init__`: `last_render_time = 0`,
`pending_render = False`, sharing the given config and renderer. -/
def initFileWatcher (cfg : WeeConfig) (rst : RendererState) : WatchState :=
  { cfg := cfg, last_render_time := 0, pending_render := false, rst := rst }

/-- A watchdog file-modification event as `on_modified` receives it:
source path, directory flag, and the wall-clock time (ms) at which the
handler runs (`time.time() * 1000`). -/
structure Event where
  src_path : String
  is_directory : Bool
  time : Int

/-- What one `on_modified` call did, observably: dropped a directory
event, dropped an irrelevant path, coalesced into an open debounce window
(dropped, `pending_render` set), or dispatched — where a dispatch either
aborted on a context reload failure, failed inside the pipeline, or
produced output. -/
inductive StepResult where
  | ignoredDirectory
  | irrelevant
  | coalesced
  | contextReloadFailed
  | renderFailed
  | rendered (out : PipelineOut)

/-- True exactly when the event got past debouncing and `_trigger_render`
ran (whether or not the cycle then aborted or failed). -/
def wasDispatched : StepResult → Bool
  | .ignoredDirectory => false
  | .irrelevant => false
  | .coalesced => false
  | .contextReloadFailed => true
  | .renderFailed => true
  | .rendered _ => true

/-- True exactly for the debounce-drop outcome. -/
def isCoalesced : StepResult → Bool
  | .coalesced => true
  | _ => false

/-- The relevance filter of `FileWatcher.on_modified` (the
`should_render` local): exact match with the absolute template path,
exact match with the absolute context path, or `str.startswith` the
absolute template directory. -/
def should_render (fs : FS) (cfg : WeeConfig) (file_path : String) : Bool :=
  pyTruthyAnd cfg.template_file (fun t => file_path == fs.abspath t) ||
  pyTruthyAnd cfg.context_file (fun c => file_path == fs.abspath c) ||
  pyTruthyAnd cfg.template_dir (fun d => pyStartsWith file_path (fs.abspath d))

/-- The tail of `FileWatcher._trigger_render`: run
`render_and_generate_pdf` under a `try/except` that reports a failure and
keeps the watcher alive. -/
def watch_render_step (fs : FS) (render : Template → JValue → String)
    (convert : String → String) (now : String) (s : WatchState) :
    WatchState × StepResult :=
  match render_and_generate_pdf fs render convert now s.cfg s.rst s.cfg.auto_open with
  | some out => ({ s with rst := out.st }, .rendered out)
  | none => (s, .renderFailed)

/-- Embedding of `FileWatcher._trigger_render`: if the changed file is the
configured context file, reload `config.context_data` from disk first; a
reload exception prints an error and returns (aborting the cycle);
otherwise render. -/
def trigger_render (fs : FS) (render : Template → JValue → String)
    (convert : String → String) (now : String) (s : WatchState)
    (changed_file : String) : WatchState × StepResult :=
  match s.cfg.context_file with
  | some cf =>
    if !cf.isEmpty && changed_file == fs.abspath cf then
      match fs.readJson cf with
      | some d =>
        watch_render_step fs render convert now
          { s with cfg := { s.cfg with context_data := d } }
      | none => (s, .contextReloadFailed)
    else
      watch_render_step fs render convert now s
  | none => watch_render_step fs render convert now s

/-- Embedding of `FileWatcher.on_modified`: drop directory events, drop
irrelevant paths, coalesce (set `pending_render`, drop) when the elapsed
time since `last_render_time` is under the debounce interval, else record
the event time as `last_render_time` and dispatch `_trigger_render`. -/
def on_modified (fs : FS) (render : Template → JValue → String)
    (convert : String → String) (now : String) (s : WatchState) (e : Event) :
    WatchState × StepResult :=
  if e.is_directory then (s, .ignoredDirectory)
  else if !(should_render fs s.cfg e.src_path) then (s, .irrelevant)
  else if e.time - s.last_render_time < s.cfg.debounce_ms then
    ({ s with pending_render := true }, .coalesced)
  else
    trigger_render fs render convert now { s with last_render_time := e.time } e.src_path

/-- Process a sequence of events in delivery order (the watchdog thread
invokes `on_modified` synchronously for each), collecting the outcome of
every call. -/
def processEvents (fs : FS) (render : Template → JValue → String)
    (convert : String → String) (now : String) :
    WatchState → List Event → WatchState × List StepResult
  | s, [] => (s, [])
  | s, e :: es =>
    let step := on_modified fs render convert now s e
    let restOut := processEvents fs render convert now step.1 es
    (restOut.1, step.2 :: restOut.2)

/-- Written from the spec's words, for comparison with `should_render`
(not a source translation): a file event is relevant iff it is the exact
template file path, the exact context file path, or a path nested under
the template-search-directory (i.e. strictly inside it, below a path
separator). -/
def specRelevantEvent (fs : FS) (cfg : WeeConfig) (p : String) : Bool :=
  (match cfg.template_file with
   | some t => p == fs.abspath t
   | none => false) ||
  (match cfg.context_file with
   | some c => p == fs.abspath c
   | none => false) ||
  (match cfg.template_dir with
   | some d => pyStartsWith p (fs.abspath d ++ "/")
   | none => false)

/-- Concrete filesystem fixture: identity path functions (absolute,
already-normalized paths), every path exists, context parses to a string,
constant mtime 5, template loading succeeds. -/
def fs0 : FS where
  abspath := fun p => p
  basename := fun p => p
  pathExists := fun _ => true
  readJson := fun _ => some (.jstr "ctx")
  getmtime := fun _ => 5
  get_template := fun _ => some "TPL"

/-- Fixture like `fs0` but every `json.load` raises. -/
def fsFail : FS :=
  { fs0 with readJson := fun _ => none }

/-- Concrete rendering engine fixture: markup is the template source. -/
def render0 : Template → JValue → String := fun t _ => t

/-- Concrete conversion engine fixture. -/
def convert0 : String → String := fun h => h

/-- Fixture config: template plus a template search directory. -/
def cfg0 : WeeConfig :=
  { template_file := some "/t/main.html", template_dir := some "/t/lib",
    output_pdf := "out.pdf" }

/-- Fixture config: template plus a context file. -/
def cfgCtx : WeeConfig :=
  { template_file := some "/t/main.html", context_file := some "/c/ctx.json" }

/-- Fixture config whose output path has no ".pdf" extension. -/
def cfgTxt : WeeConfig :=
  { template_file := some "/t/main.html", output_pdf := "report.txt" }

/-- Empty renderer cache. -/
def rst0 : RendererState := {}

/-- Renderer cache fixture holding one entry with stored mtime 7. -/
def stHit : RendererState :=
  { template_cache := [("/t/main.html", ("CACHED", 7))] }

/-- Fresh watcher over `cfg0`. -/
def s0 : WatchState := initFileWatcher cfg0 rst0

/-- Fresh watcher over `cfgCtx`. -/
def sCtx : WatchState := initFileWatcher cfgCtx rst0

/-- Template modification event at t = 1000 ms. -/
def evA : Event := { src_path := "/t/main.html", is_directory := false, time := 1000 }

/-- Template modification event at t = 1050 ms (inside the 100 ms window
opened at 1000). -/
def evB : Event := { src_path := "/t/main.html", is_directory := false, time := 1050 }

/-- Template modification event at t = 1080 ms (also inside that window). -/
def evB' : Event := { src_path := "/t/main.html", is_directory := false, time := 1080 }

/-- Template modification event at t = 1200 ms (a full interval after 1000). -/
def evC : Event := { src_path := "/t/main.html", is_directory := false, time := 1200 }

/-- Directory-level event. -/
def evDir : Event := { src_path := "/t/lib", is_directory := true, time := 1000 }

/-- Event whose path shares the string prefix "/t/lib" with the template
directory but is not nested under it. -/
def evStray : Event := { src_path := "/t/library/x.html", is_directory := false, time := 1000 }

/-- Context-file modification event at t = 1000 ms. -/
def evCtx : Event := { src_path := "/c/ctx.json", is_directory := false, time := 1000 }

/-- Event for a path outside every watched scope. -/
def evOther : Event := { src_path := "/elsewhere/f.txt", is_directory := false, time := 1000 }

/-- Context-file modification event at t = 1050 ms. -/
def evCtx2 : Event := { src_path := "/c/ctx.json", is_directory := false, time := 1050 }

/-- The pipeline outcome of a first render of `cfg0` against `fs0`. -/
def outFix : PipelineOut :=
  { html_path := "out.html", html_content := "TPL", pdf_path := "out.pdf",
    pdf_bytes := "TPL",
    st := { template_cache := [("/t/main.html", ("TPL", 5))] },
    opened := true }

/-- Helper: a relevant, non-directory event inside an open debounce window
is coalesced: the flag is set and nothing else changes. -/
theorem coalesce_step (fs : FS) (render : Template → JValue → String)
    (convert : String → String) (now : String) (s : WatchState) (e : Event)
    (hdir : e.is_directory = false)
    (hrel : should_render fs s.cfg e.src_path = true)
    (hlt : e.time - s.last_render_time < s.cfg.debounce_ms) :
    on_modified fs render convert now s e =
      ({ s with pending_render := true }, .coalesced) := by
  simp [on_modified, hdir, hrel, hlt]

/-- Helper: `watch_render_step` leaves the configuration unchanged. -/
theorem watch_render_step_cfg (fs : FS)
    (render : Template → JValue → String) (convert : String → String)
    (now : String) (s : WatchState) :
    (watch_render_step fs render convert now s).1.cfg = s.cfg := by
  unfold watch_render_step
  split <;> simp

/-- Helper: `watch_render_step` leaves `last_render_time` unchanged. -/
theorem watch_render_step_lrt (fs : FS)
    (render : Template → JValue → String) (convert : String → String)
    (now : String) (s : WatchState) :
    (watch_render_step fs render convert now s).1.last_render_time = s.last_render_time := by
  unfold watch_render_step
  split <;> simp

/-- Helper: `watch_render_step` leaves `pending_render` unchanged. -/
theorem watch_render_step_pend (fs : FS)
    (render : Template → JValue → String) (convert : String → String)
    (now : String) (s : WatchState) :
    (watch_render_step fs render convert now s).1.pending_render = s.pending_render := by
  unfold watch_render_step
  split <;> simp

/-- Helper: `_trigger_render` never changes the watched-path configuration
fields, the debounce interval, `last_render_time` or `pending_render`
(only `context_data` and the renderer cache). -/
theorem trigger_render_preserves (fs : FS)
    (render : Template → JValue → String) (convert : String → String)
    (now : String) (s : WatchState) (cf : String) :
    (trigger_render fs render convert now s cf).1.cfg.template_file = s.cfg.template_file ∧
    (trigger_render fs render convert now s cf).1.cfg.context_file = s.cfg.context_file ∧
    (trigger_render fs render convert now s cf).1.cfg.template_dir = s.cfg.template_dir ∧
    (trigger_render fs render convert now s cf).1.cfg.debounce_ms = s.cfg.debounce_ms ∧
    (trigger_render fs render convert now s cf).1.last_render_time = s.last_render_time ∧
    (trigger_render fs render convert now s cf).1.pending_render = s.pending_render := by
  unfold trigger_render
  split
  · split
    · split
      · simp [watch_render_step_cfg, watch_render_step_lrt, watch_render_step_pend]
      · simp
    · simp [watch_render_step_cfg, watch_render_step_lrt, watch_render_step_pend]
  · simp [watch_render_step_cfg, watch_render_step_lrt, watch_render_step_pend]

/-- Helper: `should_render` only reads the three watched-path fields. -/
theorem should_render_congr (fs : FS) {c1 c2 : WeeConfig} (p : String)
    (h1 : c1.template_file = c2.template_file)
    (h2 : c1.context_file = c2.context_file)
    (h3 : c1.template_dir = c2.template_dir) :
    should_render fs c1 p = should_render fs c2 p := by
  simp [should_render, h1, h2, h3]

/-- Helper: a `_trigger_render` call always counts as a dispatch. -/
theorem trigger_render_dispatches (fs : FS)
    (render : Template → JValue → String) (convert : String → String)
    (now : String) (s : WatchState) (cf : String) :
    wasDispatched (trigger_render fs render convert now s cf).2 = true := by
  unfold trigger_render
  split
  · split
    · split
      · unfold watch_render_step
        split <;> simp [wasDispatched]
      · simp [wasDispatched]
    · unfold watch_render_step
      split <;> simp [wasDispatched]
  · unfold watch_render_step
    split <;> simp [wasDispatched]

/-- Helper: a relevant, non-directory event past the debounce window
dispatches through `_trigger_render` on the state whose
`last_render_time` has already advanced to the event's time. -/
theorem dispatch_step (fs : FS) (render : Template → JValue → String)
    (convert : String → String) (now : String) (s : WatchState) (e : Event)
    (hdir : e.is_directory = false)
    (hrel : should_render fs s.cfg e.src_path = true)
    (hge : ¬ e.time - s.last_render_time < s.cfg.debounce_ms) :
    on_modified fs render convert now s e =
      trigger_render fs render convert now
        { s with last_render_time := e.time } e.src_path := by
  simp [on_modified, hdir, hrel, hge]

/-- Helper: a whole list of relevant events inside the window opened at
`s.last_render_time` is coalesced event by event. -/
theorem processEvents_coalesce_all (fs : FS)
    (render : Template → JValue → String) (convert : String → String)
    (now : String) :
    ∀ (es : List Event) (s : WatchState),
      (∀ e ∈ es, e.is_directory = false ∧ should_render fs s.cfg e.src_path = true ∧
        e.time - s.last_render_time < s.cfg.debounce_ms) →
      (processEvents fs render convert now s es).2 =
        es.map (fun _ => StepResult.coalesced) := by
  intro es
  induction es with
  | nil => intro s _; simp [processEvents]
  | cons e es ih =>
    intro s h
    obtain ⟨hd, hr, hl⟩ := h e (by simp)
    have hstep := coalesce_step fs render convert now s e hd hr hl
    simp only [processEvents, hstep, List.map_cons, List.cons.injEq, true_and]
    apply ih
    intro e' he'
    simpa using h e' (by simp [he'])

/-- C1: for every `TemplateRenderer.render_template` call, if a cache
entry exists for the template's absolute path and the current on-disk
mtime is ≤ the stored mtime (equal counts as not stale), the template is
not re-read from disk (zero disk loads, cache state unchanged) and the
cached handle is rendered fresh against the given context; otherwise —
no entry, or stored mtime strictly exceeded — the template is (re)loaded
from disk (one disk load), stored with the current mtime, and rendered.
Freshness is decided only by the timestamp comparison. -/
theorem render_template_cache_correct
    (fs : FS) (render : Template → JValue → String) (st : RendererState)
    (template_path : String) (context : JValue) :
    (∀ tpl mt,
      cacheLookup st.template_cache (fs.abspath template_path) = some (tpl, mt) →
      fs.getmtime (fs.abspath template_path) ≤ mt →
      render_template fs render st template_path context =
        some (render tpl context, st, 0)) ∧
    (∀ tpl,
      cacheLookup st.template_cache (fs.abspath template_path) = none →
      fs.get_template (fs.basename template_path) = some tpl →
      render_template fs render st template_path context =
        some (render tpl context,
          { template_cache := cacheInsert st.template_cache (fs.abspath template_path)
              (tpl, fs.getmtime (fs.abspath template_path)) }, 1)) ∧
    (∀ tpl mt tpl',
      cacheLookup st.template_cache (fs.abspath template_path) = some (tpl, mt) →
      mt < fs.getmtime (fs.abspath template_path) →
      fs.get_template (fs.basename template_path) = some tpl' →
      render_template fs render st template_path context =
        some (render tpl' context,
          { template_cache := cacheInsert st.template_cache (fs.abspath template_path)
              (tpl', fs.getmtime (fs.abspath template_path)) }, 1)) := by
  refine ⟨?_, ?_, ?_⟩
  · intro tpl mt hlook hle
    simp [render_template, hlook, hle]
  · intro tpl hlook hget
    simp [render_template, hlook, hget]
  · intro tpl mt tpl' hlook hlt hget
    simp [render_template, hlook, hget, not_le.mpr hlt]

/-- C1 witness: with a cached entry of stored mtime 7 and current mtime 5,
the cached template is rendered with no disk read and unchanged cache. -/
theorem render_template_cache_correct_witness :
    render_template fs0 render0 stHit "/t/main.html" (JValue.jstr "c") =
      some (render0 "CACHED" (JValue.jstr "c"), stHit, 0) :=
  (render_template_cache_correct fs0 render0 stHit "/t/main.html"
    (JValue.jstr "c")).1 "CACHED" 7 rfl (by decide)

/-- C2: debouncing in `FileWatcher.on_modified`.  (a) A relevant event
arriving less than the debounce interval after the last dispatched render
sets the Pending-Change flag and is dropped without dispatching.
(b) Consequently a burst of relevant events that starts with a dispatch
and whose remaining events all fall within one debounce interval of the
first produces exactly one dispatch.  (c) Two relevant events separated
by at least (including exactly) the debounce interval each produce an
independent dispatch. -/
theorem debounce_coalescing :
    (∀ (fs : FS) (render : Template → JValue → String)
       (convert : String → String) (now : String) (s : WatchState) (e : Event),
      e.is_directory = false →
      should_render fs s.cfg e.src_path = true →
      e.time - s.last_render_time < s.cfg.debounce_ms →
      on_modified fs render convert now s e =
        ({ s with pending_render := true }, .coalesced)) ∧
    (∀ (fs : FS) (render : Template → JValue → String)
       (convert : String → String) (now : String) (s : WatchState)
       (e : Event) (es : List Event),
      e.is_directory = false →
      should_render fs s.cfg e.src_path = true →
      ¬ e.time - s.last_render_time < s.cfg.debounce_ms →
      (∀ e' ∈ es, e'.is_directory = false ∧
        should_render fs s.cfg e'.src_path = true ∧
        e'.time - e.time < s.cfg.debounce_ms) →
      (processEvents fs render convert now s (e :: es)).2.countP wasDispatched = 1) ∧
    (∀ (fs : FS) (render : Template → JValue → String)
       (convert : String → String) (now : String) (s : WatchState)
       (e1 e2 : Event),
      e1.is_directory = false →
      should_render fs s.cfg e1.src_path = true →
      ¬ e1.time - s.last_render_time < s.cfg.debounce_ms →
      e2.is_directory = false →
      should_render fs s.cfg e2.src_path = true →
      s.cfg.debounce_ms ≤ e2.time - e1.time →
      (processEvents fs render convert now s [e1, e2]).2.map wasDispatched =
        [true, true]) := by
  refine ⟨?_, ?_, ?_⟩
  · intro fs render convert now s e hd hr hl
    exact coalesce_step fs render convert now s e hd hr hl
  · intro fs render convert now s e es hd hr hge htail
    have hstep := dispatch_step fs render convert now s e hd hr hge
    rcases htr : trigger_render fs render convert now
        { s with last_render_time := e.time } e.src_path with ⟨s1, r1⟩
    have hpres := trigger_render_preserves fs render convert now
      { s with last_render_time := e.time } e.src_path
    rw [htr] at hpres
    simp only at hpres
    have hdisp := trigger_render_dispatches fs render convert now
      { s with last_render_time := e.time } e.src_path
    rw [htr] at hdisp
    have hco := processEvents_coalesce_all fs render convert now es s1 ?_
    · simp only [processEvents, hstep, htr, List.countP_cons, hco, hdisp]
      have : (es.map fun _ => StepResult.coalesced).countP wasDispatched = 0 := by
        simp [List.countP_map, wasDispatched, Function.comp]
      simp [this, hdisp, wasDispatched]
    · intro e' he'
      obtain ⟨h1, h2, h3⟩ := htail e' he'
      refine ⟨h1, ?_, ?_⟩
      · rw [should_render_congr fs e'.src_path hpres.1 hpres.2.1 hpres.2.2.1]
        simpa using h2
      · rw [hpres.2.2.2.2.1, hpres.2.2.2.1]
        simpa using h3
  · intro fs render convert now s e1 e2 h1d h1r h1ge h2d h2r hgap
    have hstep1 := dispatch_step fs render convert now s e1 h1d h1r h1ge
    rcases htr : trigger_render fs render convert now
        { s with last_render_time := e1.time } e1.src_path with ⟨s1, r1⟩
    have hpres := trigger_render_preserves fs render convert now
      { s with last_render_time := e1.time } e1.src_path
    rw [htr] at hpres
    simp only at hpres
    have hdisp1 := trigger_render_dispatches fs render convert now
      { s with last_render_time := e1.time } e1.src_path
    rw [htr] at hdisp1
    have h2r' : should_render fs s1.cfg e2.src_path = true := by
      rw [should_render_congr fs e2.src_path hpres.1 hpres.2.1 hpres.2.2.1]
      simpa using h2r
    have h2ge' : ¬ e2.time - s1.last_render_time < s1.cfg.debounce_ms := by
      rw [hpres.2.2.2.2.1, hpres.2.2.2.1]
      exact not_lt.mpr hgap
    have hstep2 := dispatch_step fs render convert now s1 e2 h2d h2r' h2ge'
    have hdisp2 := trigger_render_dispatches fs render convert now
      { s1 with last_render_time := e2.time } e2.src_path
    simp [processEvents, hstep1, htr, hstep2, hdisp1, hdisp2]

/-- C2 witness: a concrete burst — a dispatch at t = 1000 ms followed by
relevant events at 1050 and 1080 ms against a 100 ms interval — yields
exactly one dispatched render. -/
theorem debounce_coalescing_witness :
    (processEvents fs0 render0 convert0 "d" s0 [evA, evB, evB']).2.countP
      wasDispatched = 1 :=
  debounce_coalescing.2.1 fs0 render0 convert0 "d" s0 evA [evB, evB']
    rfl (by decide) (by decide) (by decide)

/-- Helper: explicit characterization of the `should_render` filter. -/
theorem should_render_iff (fs : FS) (cfg : WeeConfig) (p : String) :
    should_render fs cfg p = true ↔
      ((∃ t, cfg.template_file = some t ∧ t.isEmpty = false ∧ p = fs.abspath t) ∨
       (∃ c, cfg.context_file = some c ∧ c.isEmpty = false ∧ p = fs.abspath c) ∨
       (∃ d, cfg.template_dir = some d ∧ d.isEmpty = false ∧
          pyStartsWith p (fs.abspath d) = true)) := by
  unfold should_render pyTruthyAnd
  cases htf : cfg.template_file <;> cases hcf : cfg.context_file <;>
    cases htd : cfg.template_dir <;>
      simp [Bool.or_eq_true, Bool.and_eq_true, Bool.not_eq_true', beq_iff_eq,
        or_assoc]

/-- Helper: a dispatched outcome is neither of the two dropped outcomes. -/
theorem wasDispatched_ne (r : StepResult) (h : wasDispatched r = true) :
    r ≠ StepResult.ignoredDirectory ∧ r ≠ StepResult.irrelevant := by
  cases r <;> simp_all [wasDispatched]

/-- C3 (amended): an `on_modified` event is dropped as `ignoredDirectory`
exactly for directory events; it gets past the relevance filter (into the
debounce/dispatch logic) iff it is a non-directory event whose path
equals the absolute template path, equals the absolute context path, or
has the absolute template-search-directory as a string prefix
(`str.startswith` — which includes, but is not limited to, paths nested
under that directory); and a dropped event leaves the watcher state
completely unchanged. -/
theorem on_modified_relevance_filter
    (fs : FS) (render : Template → JValue → String) (convert : String → String)
    (now : String) (s : WatchState) (e : Event) (s' : WatchState) (r : StepResult)
    (h : on_modified fs render convert now s e = (s', r)) :
    ((r = StepResult.ignoredDirectory ∨ r = StepResult.irrelevant) → s' = s) ∧
    (r = StepResult.ignoredDirectory ↔ e.is_directory = true) ∧
    ((r ≠ StepResult.ignoredDirectory ∧ r ≠ StepResult.irrelevant) ↔
      (e.is_directory = false ∧
        ((∃ t, s.cfg.template_file = some t ∧ t.isEmpty = false ∧
            e.src_path = fs.abspath t) ∨
         (∃ c, s.cfg.context_file = some c ∧ c.isEmpty = false ∧
            e.src_path = fs.abspath c) ∨
         (∃ d, s.cfg.template_dir = some d ∧ d.isEmpty = false ∧
            pyStartsWith e.src_path (fs.abspath d) = true)))) := by
  by_cases hdir : e.is_directory
  · simp only [on_modified, hdir, if_true] at h
    obtain ⟨hs, hr⟩ := Prod.mk.injEq .. ▸ h
    subst hs; subst hr
    simp [hdir]
  · simp only [Bool.not_eq_true] at hdir
    cases hrel : should_render fs s.cfg e.src_path with
    | false =>
      simp only [on_modified, hdir, Bool.false_eq_true, if_false, hrel,
        Bool.not_false, if_true] at h
      obtain ⟨hs, hr⟩ := Prod.mk.injEq .. ▸ h
      subst hs; subst hr
      have hnot := (should_render_iff fs s.cfg e.src_path).not.mp (by simp [hrel])
      simp only [hdir]
      refine ⟨fun _ => by trivial, by simp, ?_⟩
      constructor
      · rintro ⟨-, habs⟩; exact absurd rfl habs
      · rintro ⟨-, hcond⟩; exact absurd hcond hnot
    | true =>
      by_cases hdb : e.time - s.last_render_time < s.cfg.debounce_ms
      · rw [coalesce_step fs render convert now s e hdir hrel hdb] at h
        obtain ⟨hs, hr⟩ := Prod.mk.injEq .. ▸ h
        subst hs; subst hr
        have hcond := (should_render_iff fs s.cfg e.src_path).mp hrel
        exact ⟨by simp, by simp [hdir], by simp [hdir, hcond]⟩
      · rw [dispatch_step fs render convert now s e hdir hrel hdb] at h
        have hdisp := trigger_render_dispatches fs render convert now
          { s with last_render_time := e.time } e.src_path
        rw [h] at hdisp
        have hne := wasDispatched_ne r hdisp
        have hcond := (should_render_iff fs s.cfg e.src_path).mp hrel
        refine ⟨?_, ?_, ?_⟩
        · rintro (h1 | h1)
          · exact absurd h1 hne.1
          · exact absurd h1 hne.2
        · simp [hne.1, hdir]
        · exact ⟨fun _ => ⟨hdir, hcond⟩, fun _ => hne⟩

/-- C3 counterexample: with template directory "/t/lib", the event for
"/t/library/x.html" — a path that is not the template file, not the
context file, and not nested under "/t/lib" — nevertheless passes the
filter and dispatches a render, because the code tests `str.startswith`
on the directory path.  This refutes the claim that only nested paths
(or the two exact files) trigger processing. -/
theorem on_modified_relevance_filter_cex :
    wasDispatched (on_modified fs0 render0 convert0 "d" s0 evStray).2 = true ∧
    specRelevantEvent fs0 s0.cfg evStray.src_path = false := by
  constructor
  · rfl
  · rfl

/-- C3 witness: a concrete event outside every watched scope is dropped
with the state unchanged. -/
theorem on_modified_relevance_filter_witness :
    (on_modified fs0 render0 convert0 "d" s0 evOther).1 = s0 :=
  (on_modified_relevance_filter fs0 render0 convert0 "d" s0 evOther
      (on_modified fs0 render0 convert0 "d" s0 evOther).1
      (on_modified fs0 render0 convert0 "d" s0 evOther).2 rfl).1
    (Or.inr rfl)

/-- C4: on a dispatch whose triggering path equals the absolute context
file path, `_trigger_render` reloads the context before rendering: a
parse failure aborts the cycle with the whole watcher state — including
`config.context_data` and `pending_render` — exactly as it was (the
`contextReloadFailed` outcome is the user notification), while a
successful parse installs the parsed payload into `config.context_data`
and only then runs the render step. -/
theorem trigger_render_context_reload
    (fs : FS) (render : Template → JValue → String) (convert : String → String)
    (now : String) (s : WatchState) (cf : String)
    (hcf : s.cfg.context_file = some cf) (hne : cf.isEmpty = false) :
    (fs.readJson cf = none →
      trigger_render fs render convert now s (fs.abspath cf) =
        (s, StepResult.contextReloadFailed)) ∧
    (∀ d, fs.readJson cf = some d →
      trigger_render fs render convert now s (fs.abspath cf) =
        watch_render_step fs render convert now
          { s with cfg := { s.cfg with context_data := d } }) := by
  constructor
  · intro hj
    simp [trigger_render, hcf, hne, hj]
  · intro d hj
    simp [trigger_render, hcf, hne, hj]

/-- C4 witness: with a context file that fails to parse, the dispatch
aborts and returns the watcher state unchanged. -/
theorem trigger_render_context_reload_witness :
    trigger_render fsFail render0 convert0 "d" sCtx "/c/ctx.json" =
      (sCtx, StepResult.contextReloadFailed) :=
  (trigger_render_context_reload fsFail render0 convert0 "d" sCtx
    "/c/ctx.json" rfl rfl).1 rfl

/-- Helper: a dispatched outcome is never the coalesced outcome. -/
theorem isCoalesced_of_dispatched (r : StepResult)
    (h : wasDispatched r = true) : isCoalesced r = false := by
  cases r <;> simp_all [wasDispatched, isCoalesced]

/-- C5 (amended): the Pending-Change flag starts `false`, is set exactly
by a qualifying event that arrives inside an open debounce window (the
coalesced outcome), and is otherwise left as it is — in particular a
dispatched render does NOT clear it (`_trigger_render` never touches
it); it is mutated only in the event-delivery path `on_modified`. -/
theorem pending_render_lifecycle :
    (∀ (cfg : WeeConfig) (rst : RendererState),
      (initFileWatcher cfg rst).pending_render = false) ∧
    (∀ (fs : FS) (render : Template → JValue → String)
       (convert : String → String) (now : String) (s : WatchState) (e : Event),
      (on_modified fs render convert now s e).1.pending_render =
        (s.pending_render || isCoalesced (on_modified fs render convert now s e).2)) ∧
    (∀ (fs : FS) (render : Template → JValue → String)
       (convert : String → String) (now : String) (s : WatchState) (cf : String),
      (trigger_render fs render convert now s cf).1.pending_render =
        s.pending_render) := by
  refine ⟨fun _ _ => rfl, ?_, ?_⟩
  · intro fs render convert now s e
    unfold on_modified
    split
    · simp [isCoalesced]
    · split
      · simp [isCoalesced]
      · split
        · simp [isCoalesced]
        · have hp := trigger_render_preserves fs render convert now
            { s with last_render_time := e.time } e.src_path
          have hd := trigger_render_dispatches fs render convert now
            { s with last_render_time := e.time } e.src_path
          have hc := isCoalesced_of_dispatched _ hd
          simp only [hc, Bool.or_false]
          simpa using hp.2.2.2.2.2
  · intro fs render convert now s cf
    exact (trigger_render_preserves fs render convert now s cf).2.2.2.2.2

/-- C5 counterexample: dispatch at t = 1000, coalesced event at t = 1050
(flag set), dispatch at t = 1200 — after the second dispatched render the
Pending-Change flag is still `true`, refuting "cleared once a render is
dispatched". -/
theorem pending_render_never_cleared_cex :
    (processEvents fs0 render0 convert0 "d" s0 [evA, evB, evC]).2.map
        wasDispatched = [true, false, true] ∧
    (processEvents fs0 render0 convert0 "d" s0 [evA, evB, evC]).1.pending_render
      = true := by
  exact ⟨rfl, rfl⟩

/-- C6: `load_context` with a configured context file returns the parsed
contents when the file exists and parses; returns the fixed default
payload with no warning when the file is missing; returns the default
payload with a warning when the file exists but fails to parse — and the
default payload is exactly the fixed record with a title, the date stamp,
an author, a description and a sample line-item list. -/
theorem load_context_fallback
    (fs : FS) (now : String) (cfg : WeeConfig) (cf : String)
    (hcf : cfg.context_file = some cf) (hne : cf.isEmpty = false) :
    (∀ d, fs.pathExists cf = true → fs.readJson cf = some d →
      load_context fs now cfg = (d, false)) ∧
    (fs.pathExists cf = false →
      load_context fs now cfg = (defaultContext now, false)) ∧
    (fs.pathExists cf = true → fs.readJson cf = none →
      load_context fs now cfg = (defaultContext now, true)) ∧
    defaultContext now = JValue.jobj
      [("title", .jstr "Wee Document"),
       ("date", .jstr now),
       ("author", .jstr "Wee User"),
       ("description", .jstr "Document generated with Wee"),
       ("items", .jarr [.jobj [("name", .jstr "Sample Item"),
                               ("quantity", .jnum 1),
                               ("price", .jnum (999 / 100))]])] := by
  refine ⟨?_, ?_, ?_, rfl⟩
  · intro d hex hj
    simp [load_context, hcf, hne, hex, hj]
  · intro hex
    simp [load_context, hcf, hne, hex]
  · intro hex hj
    simp [load_context, hcf, hne, hex, hj]

/-- C6 witness: a configured, existing, parsing context file is returned
as the payload with no warning. -/
theorem load_context_fallback_witness :
    load_context fs0 "2026-10-12" cfgCtx = (JValue.jstr "ctx", false) :=
  (load_context_fallback fs0 "2026-10-12" cfgCtx "/c/ctx.json" rfl rfl).1
    (JValue.jstr "ctx") rfl rfl

/-- C7 (amended): for every configured output path, the pipeline persists
the intermediate markup to the path obtained from the output path by
replacing every occurrence of the substring ".pdf" with ".html"
(`str.replace`, not an extension replacement); for the usual
`<stem>.pdf` output this is `<stem>.html`, but when the output path
contains no ".pdf" the markup path coincides with the PDF output path
instead of being distinct from it. -/
theorem html_output_path_replace
    (fs : FS) (render : Template → JValue → String) (convert : String → String)
    (now : String) (cfg : WeeConfig) (rst : RendererState) (auto_open : Bool)
    (out : PipelineOut)
    (h : render_and_generate_pdf fs render convert now cfg rst auto_open = some out) :
    out.html_path = pyReplace cfg.output_pdf ".pdf" ".html" ∧
    out.pdf_path = cfg.output_pdf := by
  simp only [render_and_generate_pdf] at h
  cases htf : cfg.template_file with
  | none => simp only [htf] at h; exact Option.noConfusion h
  | some tf =>
    simp only [htf] at h
    cases hrt : render_template fs render rst tf ((load_context fs now cfg).1) with
    | none => simp only [hrt] at h; exact Option.noConfusion h
    | some trip =>
      obtain ⟨html, rst', n⟩ := trip
      simp only [hrt, Option.some.injEq] at h
      subst h
      exact ⟨rfl, rfl⟩

/-- C7 witness: for the output path "out.pdf" the persisted markup path
is "out.html", distinct from the PDF path. -/
theorem html_output_path_replace_witness :
    outFix.html_path = pyReplace cfg0.output_pdf ".pdf" ".html" ∧
    outFix.pdf_path = cfg0.output_pdf :=
  html_output_path_replace fs0 render0 convert0 "d" cfg0 rst0 true outFix rfl

/-- C7 counterexample: with output path "report.txt" (no ".pdf"
substring), the markup is persisted to "report.txt" — the very same path
as the PDF output, not a sibling "<stem>.html" — refuting both the
extension-replacement and the distinctness parts of the claim. -/
theorem html_output_path_cex :
    (render_and_generate_pdf fs0 render0 convert0 "d" cfgTxt rst0 true).map
        (fun o => (o.html_path, o.pdf_path)) = some ("report.txt", "report.txt") ∧
    ("report.txt" : String) ≠ "report.html" :=
  ⟨rfl, by decide⟩

/-- Helper: the pipeline result is definitionally independent of
`context_data` — nothing in `render_and_generate_pdf` or `load_context`
reads that field. -/
theorem pipeline_ignores_context_data (fs : FS)
    (render : Template → JValue → String) (convert : String → String)
    (now : String) (cfg : WeeConfig) (rst : RendererState) (auto_open : Bool)
    (d : JValue) :
    render_and_generate_pdf fs render convert now
        { cfg with context_data := d } rst auto_open =
      render_and_generate_pdf fs render convert now cfg rst auto_open := rfl

/-- Helper: the pipeline reads only `template_file`, `context_file` and
`output_pdf` from the configuration. -/
theorem render_and_generate_pdf_congr (fs : FS)
    (render : Template → JValue → String) (convert : String → String)
    (now : String) (c1 c2 : WeeConfig) (rst : RendererState) (ao : Bool)
    (htf : c1.template_file = c2.template_file)
    (hcf : c1.context_file = c2.context_file)
    (hop : c1.output_pdf = c2.output_pdf) :
    render_and_generate_pdf fs render convert now c1 rst ao =
      render_and_generate_pdf fs render convert now c2 rst ao := by
  unfold render_and_generate_pdf load_context
  rw [htf, hcf, hop]

/-- Helper: the dispatch outcome of `watch_render_step` depends only on
the pipeline-relevant fields of the state. -/
theorem watch_render_step_snd_congr (fs : FS)
    (render : Template → JValue → String) (convert : String → String)
    (now : String) (s1 s2 : WatchState)
    (htf : s1.cfg.template_file = s2.cfg.template_file)
    (hcf : s1.cfg.context_file = s2.cfg.context_file)
    (hop : s1.cfg.output_pdf = s2.cfg.output_pdf)
    (hao : s1.cfg.auto_open = s2.cfg.auto_open)
    (hrst : s1.rst = s2.rst) :
    (watch_render_step fs render convert now s1).2 =
      (watch_render_step fs render convert now s2).2 := by
  unfold watch_render_step
  rw [render_and_generate_pdf_congr fs render convert now s1.cfg s2.cfg
    s1.rst s1.cfg.auto_open htf hcf hop, hao, hrst]
  cases hx : render_and_generate_pdf fs render convert now s2.cfg s2.rst
      s2.cfg.auto_open <;> simp [hx]

/-- C8: the render pipeline never reads `config.context_data` — its
result (markup, PDF bytes, paths, cache state) is unchanged under an
arbitrary replacement of `context_data`, because context is always
re-read from disk through `load_context`; consequently the dispatch-time
context reload in `_trigger_render` has no influence on the observable
outcome of the dispatch. -/
theorem render_independent_of_context_data :
    (∀ (fs : FS) (render : Template → JValue → String)
       (convert : String → String) (now : String) (cfg : WeeConfig)
       (rst : RendererState) (auto_open : Bool) (d : JValue),
      render_and_generate_pdf fs render convert now
          { cfg with context_data := d } rst auto_open =
        render_and_generate_pdf fs render convert now cfg rst auto_open) ∧
    (∀ (fs : FS) (render : Template → JValue → String)
       (convert : String → String) (now : String) (s : WatchState)
       (cf : String) (d : JValue),
      (trigger_render fs render convert now
          { s with cfg := { s.cfg with context_data := d } } cf).2 =
        (trigger_render fs render convert now s cf).2) := by
  refine ⟨fun fs render convert now cfg rst ao d =>
    pipeline_ignores_context_data fs render convert now cfg rst ao d, ?_⟩
  intro fs render convert now s cf d
  unfold trigger_render
  cases hcf : s.cfg.context_file with
  | none =>
    simp only [hcf]
    apply watch_render_step_snd_congr <;> simp [hcf]
  | some c =>
    simp only [hcf]
    cases hcond : (!c.isEmpty && cf == fs.abspath c) with
    | false =>
      simp only [hcond, Bool.false_eq_true, if_false]
      apply watch_render_step_snd_congr <;> simp [hcf]
    | true =>
      simp only [hcond, if_true]
      cases hj : fs.readJson c with
      | none => simp [hj]
      | some d' =>
        simp only [hj]

/-- C9: a dispatch whose context reload fails still consumes a full
debounce window — `last_render_time` is advanced to the event's time
before the reload is attempted, so after the aborted cycle every relevant
event within the debounce interval of the failed attempt is coalesced
(flag set, dropped) rather than dispatched. -/
theorem failed_dispatch_consumes_window
    (fs : FS) (render : Template → JValue → String) (convert : String → String)
    (now : String) (s : WatchState) (e e2 : Event) (cf : String)
    (hcf : s.cfg.context_file = some cf) (hne : cf.isEmpty = false)
    (hdir : e.is_directory = false)
    (hpath : e.src_path = fs.abspath cf)
    (hrel : should_render fs s.cfg e.src_path = true)
    (hge : ¬ e.time - s.last_render_time < s.cfg.debounce_ms)
    (hj : fs.readJson cf = none) :
    on_modified fs render convert now s e =
      ({ s with last_render_time := e.time }, StepResult.contextReloadFailed) ∧
    (e2.is_directory = false →
      should_render fs s.cfg e2.src_path = true →
      e2.time - e.time < s.cfg.debounce_ms →
      on_modified fs render convert now { s with last_render_time := e.time } e2 =
        ({ s with last_render_time := e.time, pending_render := true },
          StepResult.coalesced)) := by
  constructor
  · rw [dispatch_step fs render convert now s e hdir hrel hge]
    simp [trigger_render, hcf, hne, hpath, hj]
  · intro h2d h2r h2l
    exact coalesce_step fs render convert now
      { s with last_render_time := e.time } e2 h2d h2r h2l

/-- C9 witness: a failed context-reload dispatch at t = 1000 leaves
`last_render_time = 1000`, and a further context event at t = 1050 is
coalesced instead of dispatched. -/
theorem failed_dispatch_consumes_window_witness :
    on_modified fsFail render0 convert0 "d" sCtx evCtx =
      ({ sCtx with last_render_time := 1000 }, StepResult.contextReloadFailed) ∧
    on_modified fsFail render0 convert0 "d"
        { sCtx with last_render_time := 1000 } evCtx2 =
      ({ sCtx with last_render_time := 1000, pending_render := true },
        StepResult.coalesced) := by
  have h := failed_dispatch_consumes_window fsFail render0 convert0 "d" sCtx
    evCtx evCtx2 "/c/ctx.json" rfl rfl rfl rfl (by decide) (by decide) rfl
  exact ⟨h.1, h.2 rfl (by decide) (by decide)⟩

/-- C10: the first relevant event in watch mode dispatches immediately no
matter how soon it follows the mandatory initial render:
`FileWatcher.__init__` sets `last_render_time` to 0 independently of the
initial render (which runs before the watcher exists and touches no
watcher state), so any relevant event whose wall-clock time — epoch
milliseconds — is at least the debounce interval dispatches. -/
theorem first_event_dispatches
    (fs : FS) (render : Template → JValue → String) (convert : String → String)
    (now : String) (cfg : WeeConfig) (rst : RendererState) (e : Event)
    (hdir : e.is_directory = false)
    (hrel : should_render fs cfg e.src_path = true)
    (ht : cfg.debounce_ms ≤ e.time) :
    (initFileWatcher cfg rst).last_render_time = 0 ∧
    wasDispatched
      (on_modified fs render convert now (initFileWatcher cfg rst) e).2 = true := by
  refine ⟨rfl, ?_⟩
  have hge : ¬ e.time - (initFileWatcher cfg rst).last_render_time <
      (initFileWatcher cfg rst).cfg.debounce_ms := by
    simp only [initFileWatcher, Int.sub_zero]
    exact not_lt.mpr ht
  rw [dispatch_step fs render convert now (initFileWatcher cfg rst) e hdir hrel hge]
  exact trigger_render_dispatches fs render convert now
    { initFileWatcher cfg rst with last_render_time := e.time } e.src_path

/-- C10 witness: a fresh watcher dispatches on a relevant event at
t = 1000 ms against the default 100 ms debounce interval. -/
theorem first_event_dispatches_witness :
    (initFileWatcher cfg0 rst0).last_render_time = 0 ∧
    wasDispatched
      (on_modified fs0 render0 convert0 "d" (initFileWatcher cfg0 rst0) evA).2
      = true :=
  first_event_dispatches fs0 render0 convert0 "d" cfg0 rst0 evA
    rfl (by decide) (by decide)

end Wee
